import Mathlib

/-!
Verification development for the `maplibre-gl-extend` convenience layer.

The definitions below are a shallow embedding of the library's registry,
layer-management, WMS URL construction, GeoJSON geometry detection,
identifier generation and basemap-switching code.  Numbers that the
source handles as JS numbers are modelled as `Rat`; the engine (maplibre)
is modelled explicitly as part of the map state: the list of style layers,
the list of registered source ids, and logs of the paint/layout property
mutations the library issues.
-/

/-- `clamp` from `src/lib/utils/validation.ts`:
`Math.min(Math.max(value, min), max)`. -/
def clamp (value lo hi : Rat) : Rat :=
  min (max value lo) hi

/-- The two module-level counters of `src/lib/utils/id-generator.ts`
(`layerCounter` and `sourceCounter`). -/
structure GenState where
  layer : Nat
  source : Nat
  deriving Repr, DecidableEq

/-- `generateLayerId` from `id-generator.ts`.  The template-literal
`mgl-extend-${prefix}-${++layerCounter}-${Date.now().toString(36)}` is
modelled with the time-derived suffix passed in explicitly (the code
reads the clock; the model takes the already-formatted base-36 string). -/
def generateLayerId (p : String) (now36 : String) (st : GenState) :
    String × GenState :=
  let n := st.layer + 1
  ("mgl-extend-" ++ p ++ "-" ++ toString n ++ "-" ++ now36,
   { st with layer := n })

/-- `generateSourceId` from `id-generator.ts`. -/
def generateSourceId (p : String) (now36 : String) (st : GenState) :
    String × GenState :=
  let n := st.source + 1
  ("mgl-extend-" ++ p ++ "-" ++ toString n ++ "-" ++ now36,
   { st with source := n })

/-- `resetCounters` from `id-generator.ts`: both counters back to zero. -/
def resetCounters : GenState := ⟨0, 0⟩

/-- JS `String.prototype.includes` on character lists: the needle occurs
contiguously somewhere in the haystack. -/
def charListIncludes (needle : List Char) : List Char → Bool
  | [] => needle.isEmpty
  | c :: rest => needle.isPrefixOf (c :: rest) || charListIncludes needle rest

/-- JS `hay.includes(pat)`. -/
def strIncludes (hay pat : String) : Bool :=
  charListIncludes pat.data hay.data

example : strIncludes "MultiPoint" "Point" = true := by decide
example : strIncludes "LineString" "Point" = false := by decide

/-! ### WMS tile-URL construction (`addWmsLayer` in `src/lib/layers/raster.ts`) -/

/-- Characters the `application/x-www-form-urlencoded` serializer used by
`URLSearchParams.toString()` leaves unencoded: ASCII alphanumerics and
`*`, `-`, `.`, `_`. -/
def isUrlencodedSafe (c : Char) : Bool :=
  c.isAlphanum || c = '*' || c = '-' || c = '.' || c = '_'

/-- Uppercase hexadecimal digit, as produced by the urlencoded serializer. -/
def hexDigit (n : Nat) : Char :=
  if n < 10 then Char.ofNat (48 + n) else Char.ofNat (55 + n)

/-- Percent-encoding of one character under the urlencoded serializer:
safe characters pass through, space becomes `+`, anything else becomes
`%XX`.  The model covers single-byte (ASCII) characters, which is all the
code at hand ever feeds it. -/
def encodeChar (c : Char) : List Char :=
  if isUrlencodedSafe c then [c]
  else if c = ' ' then ['+']
  else ['%', hexDigit (c.toNat / 16 % 16), hexDigit (c.toNat % 16)]

/-- Urlencode a whole string. -/
def encodeStr (s : String) : String :=
  ⟨(s.data.map encodeChar).flatten⟩

/-- One `key=value` fragment of `URLSearchParams.toString()`. -/
def encodePair (p : String × String) : String :=
  encodeStr p.1 ++ "=" ++ encodeStr p.2

/-- Join the fragments with `&`. -/
def joinAmp : List String → String
  | [] => ""
  | [x] => x
  | x :: y :: rest => x ++ "&" ++ joinAmp (y :: rest)

/-- `URLSearchParams(obj).toString()` for an object with the given
(unique-keyed, insertion-ordered) properties. -/
def serializeParams (l : List (String × String)) : String :=
  joinAmp (l.map encodePair)

/-- JS object-literal assignment of one more property: an existing key
keeps its position but takes the new value, a fresh key is appended. -/
def upsert (l : List (String × String)) (kv : String × String) :
    List (String × String) :=
  if l.any (fun p => p.1 == kv.1) then
    l.map (fun p => if p.1 == kv.1 then (p.1, kv.2) else p)
  else l ++ [kv]

/-- JS spread `{ ...base, ...extra }` property semantics. -/
def objMerge (base extra : List (String × String)) : List (String × String) :=
  extra.foldl upsert base

/-- The fields of `AddWmsOptions` that `addWmsLayer` reads while building
the tile URL (`layers`, `format`, `version`, `crs`, `transparent`,
`params`). -/
structure WmsOptions where
  layers : String
  format : Option String := none
  version : Option String := none
  crs : Option String := none
  transparent : Option Bool := none
  params : List (String × String) := []
  deriving Repr, DecidableEq

/-- The object literal passed to `new URLSearchParams(...)` in
`addWmsLayer` (lines 419-431 of `raster.ts`), before the trailing
`...options.params` spread. -/
def wmsBaseParams (o : WmsOptions) : List (String × String) :=
  [("service", "WMS"),
   ("version", o.version.getD "1.1.1"),
   ("request", "GetMap"),
   ("layers", o.layers),
   ("format", o.format.getD "image/png"),
   ("transparent", if o.transparent.getD true then "true" else "false"),
   ("srs", o.crs.getD "EPSG:3857"),
   ("width", "256"),
   ("height", "256"),
   ("bbox", "\x7bbbox-epsg-3857\x7d")]

/-- The full parameter object, with `...options.params` spread last. -/
def wmsParams (o : WmsOptions) : List (String × String) :=
  objMerge (wmsBaseParams o) o.params

/-- The tile URL `addWmsLayer` registers with the engine:
`` `${baseUrl}?${params.toString()}` ``. -/
def wmsTileUrl (baseUrl : String) (o : WmsOptions) : String :=
  baseUrl ++ "?" ++ serializeParams (wmsParams o)

/-! ### GeoJSON geometry detection (`src/lib/layers/geojson.ts`) -/

/-- The shapes of GeoJSON input that `detectGeometryType` distinguishes:
a bare geometry object, a single feature (whose geometry may be null),
or a feature collection.  Each geometry is represented by its `type`
string, which is all the function reads. -/
inductive GeoData where
  | geometry (gtype : String)
  | feature (gtype : Option String)
  | featureCollection (fs : List (Option String))
  deriving Repr, DecidableEq

/-- `t?.includes(pat)` where `t` may be null/undefined (falsy result). -/
def optIncludes (t : Option String) (pat : String) : Bool :=
  match t with
  | some s => strIncludes s pat
  | none => false

/-- The per-feature classification inside the `FeatureCollection` branch
of `detectGeometryType` (lines 26-32). -/
def classifyFeature (g : Option String) : String :=
  if optIncludes g "Point" then "Point"
  else if optIncludes g "Line" then "LineString"
  else if optIncludes g "Polygon" then "Polygon"
  else "Mixed"

/-- The trailing geometry-object branch of `detectGeometryType`
(lines 40-46), applied to a `type` string. -/
def geometryBranch (t : String) : String :=
  if strIncludes t "Point" then "Point"
  else if strIncludes t "Line" then "LineString"
  else if strIncludes t "Polygon" then "Polygon"
  else "Mixed"

/-- `detectGeometryType` from `geojson.ts`.  A `Feature` whose geometry
matches none of the three families falls through to the bottom branch
with `data.type = "Feature"` (which matches nothing, giving `"Mixed"`);
for a `FeatureCollection` the per-feature classifications are collected
into a `Set` and a singleton set is returned as-is.  `List.dedup` has the
same underlying set and the same singleton value as the JS `Set`. -/
def detectGeometryType (d : GeoData) : String :=
  match d with
  | .feature g =>
    if optIncludes g "Point" then "Point"
    else if optIncludes g "Line" then "LineString"
    else if optIncludes g "Polygon" then "Polygon"
    else geometryBranch "Feature"
  | .featureCollection fs =>
    match (fs.map classifyFeature).dedup with
    | [t] => t
    | _ => "Mixed"
  | .geometry t => geometryBranch t

/-- `getDefaultLayerType` from `geojson.ts`. -/
def getDefaultLayerType (geometryType : String) : String :=
  match geometryType with
  | "Point" => "circle"
  | "LineString" => "line"
  | "Polygon" => "fill"
  | _ => "fill"

/-- The layer kind `addGeojson` picks when `options.type` is absent:
`getDefaultLayerType(detectGeometryType(geojsonData))`. -/
def defaultLayerTypeFor (d : GeoData) : String :=
  getDefaultLayerType (detectGeometryType d)

example : defaultLayerTypeFor (.geometry "Point") = "circle" := by decide
example : defaultLayerTypeFor (.geometry "MultiLineString") = "line" := by decide
example : defaultLayerTypeFor (.featureCollection [some "Point", some "Polygon"]) = "fill" := by decide

/-! ### Errors and the basemap catalog -/

/-- A value appearing in a `MapExtendError.details` mapping. -/
inductive DetailVal where
  | str (s : String)
  | strs (l : List String)
  deriving Repr, DecidableEq

/-- A thrown JS error: plain `Error` has `code := none` and empty
details; `MapExtendError` carries its `code` string and `details`. -/
structure ThrownError where
  message : String
  code : Option String := none
  details : List (String × DetailVal) := []
  deriving Repr, DecidableEq

/-- `Object.keys(basemaps)` of `src/lib/basemaps/catalog.ts`, in
declaration order: the return value of `getBasemapNames()`. -/
def basemapNames : List String :=
  ["OpenStreetMap.Mapnik", "OpenStreetMap.DE", "OpenStreetMap.France",
   "OpenStreetMap.HOT",
   "CartoDB.Positron", "CartoDB.PositronNoLabels",
   "CartoDB.PositronOnlyLabels", "CartoDB.DarkMatter",
   "CartoDB.DarkMatterNoLabels", "CartoDB.DarkMatterOnlyLabels",
   "CartoDB.Voyager", "CartoDB.VoyagerNoLabels",
   "CartoDB.VoyagerOnlyLabels", "CartoDB.VoyagerLabelsUnder",
   "Esri.WorldStreetMap", "Esri.DeLorme", "Esri.WorldTopoMap",
   "Esri.WorldImagery", "Esri.WorldTerrain", "Esri.WorldShadedRelief",
   "Esri.WorldPhysical", "Esri.OceanBasemap", "Esri.NatGeoWorldMap",
   "Esri.WorldGrayCanvas",
   "OpenTopoMap",
   "USGS.USTopo", "USGS.USImagery", "USGS.USImageryTopo",
   "Stadia.AlidadeSmooth", "Stadia.AlidadeSmoothDark",
   "Stadia.OSMBright", "Stadia.Outdoors", "Stadia.StamenToner",
   "Stadia.StamenTonerLite", "Stadia.StamenWatercolor",
   "Stadia.StamenTerrain",
   "Google.Streets", "Google.Satellite", "Google.Hybrid",
   "Google.Terrain"]

/-- `validateBasemapName` from `src/lib/utils/validation.ts`: `none`
when the name is in the catalog, otherwise the `MapExtendError` it
throws, with code `UNKNOWN_BASEMAP` and details `{ name, validNames }`. -/
def validateBasemapName (name : String) : Option ThrownError :=
  if basemapNames.contains name then none
  else some
    { message := "Unknown basemap: " ++ name ++ ". Valid options: " ++
        String.intercalate ", " basemapNames,
      code := some "UNKNOWN_BASEMAP",
      details := [("name", .str name), ("validNames", .strs basemapNames)] }

/-! ### The map state: engine and registry -/

/-- A layer registered with the engine; `type` is the render kind the
opacity switch in `setLayerOpacity` dispatches on. -/
structure EngineLayer where
  id : String
  type : String
  deriving Repr, DecidableEq

/-- The creation-options fields the registry logic reads
(`options.opacity` in `storeLayerInfo`). -/
structure LayerOptions where
  opacity : Option Rat := none
  deriving Repr, DecidableEq

/-- `LayerInfo` from `src/lib/layers/types.ts`. -/
structure LayerInfo where
  layerId : String
  sourceId : String
  type : String
  visible : Bool
  opacity : Rat
  options : LayerOptions
  deriving Repr, DecidableEq

/-- A map instance together with the engine state the library touches:
the style's layer list (ordered), the registered source ids, the
`__maplibreExtendLayers` registry, the tracked current basemap, and logs
of the paint/layout property mutations issued to the engine. -/
structure MapState where
  layers : List EngineLayer
  sources : List String
  registry : List LayerInfo
  basemap : Option String
  paintLog : List (String × String × Rat)
  layoutLog : List (String × String × String)
  deriving Repr, DecidableEq

/-- A fresh map: empty style, empty registry, no basemap. -/
def emptyMap : MapState :=
  { layers := [], sources := [], registry := [],
    basemap := none, paintLog := [], layoutLog := [] }

/-- `map.getLayer(id)`. -/
def getLayer (m : MapState) (lid : String) : Option EngineLayer :=
  m.layers.find? (fun l => l.id == lid)

/-- `map.getSource(id)` truthiness. -/
def sourceExists (m : MapState) (sid : String) : Bool :=
  m.sources.contains sid

/-- `map.removeLayer(id)`. -/
def removeEngineLayer (m : MapState) (lid : String) : MapState :=
  { m with layers := m.layers.filter (fun l => l.id != lid) }

/-- `map.removeSource(id)`. -/
def removeSource (m : MapState) (sid : String) : MapState :=
  { m with sources := m.sources.filter (fun s => s != sid) }

/-- `map.addSource(id, ...)`; only the id matters to the properties at
hand, the source description itself is opaque to the registry logic. -/
def addSource (m : MapState) (sid : String) : MapState :=
  { m with sources := m.sources ++ [sid] }

/-- Insert `moved` in front of the first layer whose id is `bid`; when no
layer matches, append (the call sites below only pass ids they have
checked, where maplibre itself would throw). -/
def insertBeforeId : List EngineLayer → String → List EngineLayer →
    List EngineLayer
  | [], _, moved => moved
  | l :: ls, bid, moved =>
    if l.id == bid then moved ++ l :: ls
    else l :: insertBeforeId ls bid moved

/-- `map.addLayer(spec, beforeId?)`: append at the top, or insert before
the named layer. -/
def addEngineLayer (m : MapState) (l : EngineLayer)
    (beforeId : Option String) : MapState :=
  { m with layers :=
      match beforeId with
      | none => m.layers ++ [l]
      | some bid => insertBeforeId m.layers bid [l] }

/-- `map.moveLayer(id, beforeId?)`: detach the layer and re-insert at the
top or before the named layer. -/
def moveLayer (m : MapState) (lid : String) (beforeId : Option String) :
    MapState :=
  let moved := m.layers.filter (fun l => l.id == lid)
  let rest := m.layers.filter (fun l => l.id != lid)
  { m with layers :=
      match beforeId with
      | none => rest ++ moved
      | some bid => insertBeforeId rest bid moved }

/-- `map.setPaintProperty(id, prop, value)` — recorded in the log. -/
def setPaintProperty (m : MapState) (lid prop : String) (v : Rat) :
    MapState :=
  { m with paintLog := m.paintLog ++ [(lid, prop, v)] }

/-- `map.setLayoutProperty(id, prop, value)` — recorded in the log. -/
def setLayoutProperty (m : MapState) (lid prop v : String) : MapState :=
  { m with layoutLog := m.layoutLog ++ [(lid, prop, v)] }

/-! ### The layer registry (`src/lib/layers/registry.ts`) -/

/-- `getLayerInfoById`: `registry[layerId] || null`. -/
def getLayerInfoById (m : MapState) (lid : String) : Option LayerInfo :=
  m.registry.find? (fun r => r.layerId == lid)

/-- `getAllCustomLayers`: `Object.values(registry)`. -/
def getAllCustomLayers (m : MapState) : List LayerInfo :=
  m.registry

/-- `storeLayerInfo`: `registry[layerId] = { layerId, sourceId, type,
visible: true, opacity: options.opacity ?? 1, options }`.  A JS object
keeps one value per key; re-assigning an existing key is modelled by
dropping the old entry and appending the new one (entry order is never
significant to the library). -/
def storeLayerInfo (m : MapState) (lid sid ty : String)
    (options : LayerOptions) : MapState :=
  { m with registry :=
      m.registry.filter (fun r => r.layerId != lid) ++
      [{ layerId := lid, sourceId := sid, type := ty, visible := true,
         opacity := options.opacity.getD 1, options := options }] }

/-- `removeLayerInfo`: `delete registry[layerId]`. -/
def removeLayerInfo (m : MapState) (lid : String) : MapState :=
  { m with registry := m.registry.filter (fun r => r.layerId != lid) }

/-- `updateLayerVisibility`: mutate the `visible` field if the record
exists, silently do nothing otherwise. -/
def updateLayerVisibility (m : MapState) (lid : String) (v : Bool) :
    MapState :=
  { m with registry :=
      m.registry.map (fun r =>
        if r.layerId == lid then { r with visible := v } else r) }

/-- `updateLayerOpacity`: mutate the `opacity` field if the record
exists, silently do nothing otherwise. -/
def updateLayerOpacity (m : MapState) (lid : String) (o : Rat) :
    MapState :=
  { m with registry :=
      m.registry.map (fun r =>
        if r.layerId == lid then { r with opacity := o } else r) }

/-! ### Layer management (`src/lib/layers/management.ts`) -/

/-- `removeLayerById` (lines 40-65): look up the record; remove the
engine layer if it exists; if a record existed and the engine source
exists, remove the source unless some other registry record references
it; finally delete the record. -/
def removeLayerById (m : MapState) (lid : String) : MapState :=
  let layerInfo := getLayerInfoById m lid
  let m1 := if (getLayer m lid).isSome then removeEngineLayer m lid else m
  let m2 :=
    match layerInfo with
    | some info =>
      if sourceExists m1 info.sourceId then
        let allLayers := getAllCustomLayers m1
        let others := allLayers.filter (fun l =>
          l.sourceId == info.sourceId && l.layerId != lid)
        if others.isEmpty then removeSource m1 info.sourceId else m1
      else m1
    | none => m1
  removeLayerInfo m2 lid

/-- `setLayerVisibility` (lines 96-106): everything happens inside
`if (map.getLayer(layerId))`. -/
def setLayerVisibility (m : MapState) (lid : String) (v : Bool) :
    MapState :=
  match getLayer m lid with
  | some _ =>
    let m1 := setLayoutProperty m lid "visibility"
      (if v then "visible" else "none")
    updateLayerVisibility m1 lid v
  | none => m

/-- The `switch (layerType)` of `setLayerOpacity` (lines 128-145):
one paint property per recognized kind, two for `symbol`, nothing for an
unrecognized kind. -/
def applyOpacityPaint (m : MapState) (lid ty : String) (c : Rat) :
    MapState :=
  match ty with
  | "fill" => setPaintProperty m lid "fill-opacity" c
  | "line" => setPaintProperty m lid "line-opacity" c
  | "circle" => setPaintProperty m lid "circle-opacity" c
  | "raster" => setPaintProperty m lid "raster-opacity" c
  | "symbol" =>
    setPaintProperty (setPaintProperty m lid "icon-opacity" c)
      lid "text-opacity" c
  | _ => m

/-- `setLayerOpacity` (lines 116-151): clamp, dispatch the paint
property on the layer's render kind, then update the registry — all
inside `if (layer)`. -/
def setLayerOpacity (m : MapState) (lid : String) (opacity : Rat) :
    MapState :=
  let clampedOpacity := clamp opacity 0 1
  match getLayer m lid with
  | some layer =>
    updateLayerOpacity (applyOpacityPaint m lid layer.type clampedOpacity)
      lid clampedOpacity
  | none => m

/-- `bringLayerToFront`: `moveLayer(layerId)` when the engine has the
layer. -/
def bringLayerToFront (m : MapState) (lid : String) : MapState :=
  if (getLayer m lid).isSome then moveLayer m lid none else m

/-- The reserved basemap layer id (`management.ts` line 178 and
`basemaps/index.ts`). -/
def basemapLayerId : String := "__maplibre-extend-basemap-layer"

/-- The reserved basemap source id. -/
def basemapSourceId : String := "__maplibre-extend-basemap"

/-- `sendLayerToBack`: find the first non-basemap style layer and move
the layer before it (when that index is positive and names a different
layer). -/
def sendLayerToBack (m : MapState) (lid : String) : MapState :=
  if (getLayer m lid).isSome then
    let layers := m.layers
    let i := layers.findIdx (fun l => l.id != basemapLayerId)
    match layers.get? i with
    | some l =>
      if i > 0 then
        if l.id != lid then moveLayer m lid (some l.id) else m
      else m
    | none => m
  else m

/-! ### Basemap switching (`src/lib/basemaps/index.ts`) -/

/-- `removeBasemap`: drop the reserved layer and source if present and
clear the tracker. -/
def removeBasemap (m : MapState) : MapState :=
  let m1 := if (getLayer m basemapLayerId).isSome
    then removeEngineLayer m basemapLayerId else m
  let m2 := if sourceExists m1 basemapSourceId
    then removeSource m1 basemapSourceId else m1
  { m2 with basemap := none }

/-- `addBasemap`: look the name up in the catalog FIRST; an unknown name
throws a plain `Error` (no machine-readable code) before any teardown.
On success: tear down the previous basemap, add the reserved source, add
the reserved raster layer before the current first style layer, and
record the name.  The returned pair is the (possibly mutated) map plus
the thrown error, if any. -/
def addBasemap (m : MapState) (name : String) :
    MapState × Option ThrownError :=
  if basemapNames.contains name then
    let m1 := removeBasemap m
    let m2 := addSource m1 basemapSourceId
    let firstLayerId := (m2.layers.head?).map (fun l => l.id)
    let m3 := addEngineLayer m2 ⟨basemapLayerId, "raster"⟩ firstLayerId
    ({ m3 with basemap := some name }, none)
  else
    (m, some
      { message := "Unknown basemap: " ++ name ++
          ". Available basemaps: " ++ String.intercalate ", " basemapNames })

/-- `setBasemap` is an alias for `addBasemap`. -/
def setBasemap (m : MapState) (name : String) :
    MapState × Option ThrownError :=
  addBasemap m name

/-! ### Operation sequences (for the registry/engine invariant) -/

/-- The layer-creation tail common to `addGeojson` / `addRaster` /
`addCogLayer` / `addWmsLayer` / `addVector`: `map.addSource(...)`, then
`map.addLayer({id, type, source}, beforeId)`, then `storeLayerInfo`. -/
def createLayer (m : MapState) (lid sid ty : String)
    (options : LayerOptions) (beforeId : Option String) : MapState :=
  let m1 := addSource m sid
  let m2 := addEngineLayer m1 ⟨lid, ty⟩ beforeId
  storeLayerInfo m2 lid sid ty options

/-- The library operations a caller can apply to one map. -/
inductive Op where
  | create (lid sid ty : String) (options : LayerOptions)
      (beforeId : Option String)
  | visibility (lid : String) (v : Bool)
  | opacity (lid : String) (o : Rat)
  | toFront (lid : String)
  | toBack (lid : String)
  | remove (lid : String)

/-- Apply one operation. -/
def step (m : MapState) : Op → MapState
  | .create lid sid ty options beforeId =>
    createLayer m lid sid ty options beforeId
  | .visibility lid v => setLayerVisibility m lid v
  | .opacity lid o => setLayerOpacity m lid o
  | .toFront lid => bringLayerToFront m lid
  | .toBack lid => sendLayerToBack m lid
  | .remove lid => removeLayerById m lid

/-- Run a sequence of operations from a fresh map. -/
def applyOps (ops : List Op) : MapState :=
  ops.foldl step emptyMap

/-! ### Concrete states used to exercise the theorems -/

/-- A registry record for layer `L` on source `S`. -/
def recL : LayerInfo :=
  { layerId := "L", sourceId := "S", type := "fill", visible := true,
    opacity := 1, options := {} }

/-- A map whose registry has a record for `L` but whose engine has no
layer `L` (the orphan situation the visibility/opacity guards hit). -/
def mOrphan : MapState :=
  { emptyMap with sources := ["S"], registry := [recL] }

/-- A map where engine layer `L` and its registry record both exist. -/
def mLive : MapState :=
  { emptyMap with
    layers := [⟨"L", "fill"⟩], sources := ["S"],
    registry := [recL] }

/-- Two layers `L1`, `L2` sharing source `S`. -/
def mShared : MapState :=
  { emptyMap with
    layers := [⟨"L1", "fill"⟩, ⟨"L2", "fill"⟩],
    sources := ["S"],
    registry :=
      [{ layerId := "L1", sourceId := "S", type := "fill",
         visible := true, opacity := 1, options := {} },
       { layerId := "L2", sourceId := "S", type := "fill",
         visible := true, opacity := 1, options := {} }] }

/-- A single layer `L3` owning source `S2` alone. -/
def mSolo : MapState :=
  { emptyMap with
    layers := [⟨"L3", "line"⟩],
    sources := ["S2"],
    registry :=
      [{ layerId := "L3", sourceId := "S2", type := "line",
         visible := true, opacity := 1, options := {} }] }

/-- A map with an active basemap. -/
def mBase : MapState :=
  { emptyMap with
    layers := [⟨basemapLayerId, "raster"⟩],
    sources := [basemapSourceId],
    basemap := some "CartoDB.Positron" }

/-! ### Helper lemmas about substrings and parameter serialization -/

lemma isPrefixOf_append_self (t b : List Char) :
    t.isPrefixOf (t ++ b) = true := by
  induction t with
  | nil => simp [List.isPrefixOf]
  | cons c cs ih => simp [List.isPrefixOf, ih]

lemma charListIncludes_of_isPrefixOf (t hay : List Char)
    (h : t.isPrefixOf hay = true) : charListIncludes t hay = true := by
  cases hay with
  | nil =>
    cases t with
    | nil => rfl
    | cons c cs => simp [List.isPrefixOf] at h
  | cons c rest => simp [charListIncludes, h]

lemma charListIncludes_cons (t : List Char) (c : Char) (rest : List Char)
    (h : charListIncludes t rest = true) :
    charListIncludes t (c :: rest) = true := by
  simp [charListIncludes, h]

lemma charListIncludes_append (A t B : List Char) :
    charListIncludes t (A ++ t ++ B) = true := by
  induction A with
  | nil => exact charListIncludes_of_isPrefixOf _ _ (isPrefixOf_append_self t B)
  | cons c A' ih => exact charListIncludes_cons _ _ _ ih

lemma string_data_append (a b : String) : (a ++ b).data = a.data ++ b.data := by
  cases a; cases b; rfl

lemma joinAmp_mem_decomp (s : String) (parts : List String) (h : s ∈ parts) :
    ∃ A B : List Char, (joinAmp parts).data = A ++ s.data ++ B := by
  induction parts with
  | nil => cases h
  | cons x rest ih =>
    cases rest with
    | nil =>
      have hx : s = x := by simpa using h
      subst hx
      exact ⟨[], [], by simp [joinAmp]⟩
    | cons y rest' =>
      rcases List.mem_cons.mp h with hx | h'
      · subst hx
        refine ⟨[], ("&" ++ joinAmp (y :: rest')).data, ?_⟩
        simp [joinAmp, string_data_append]
      · rcases ih h' with ⟨A, B, hAB⟩
        refine ⟨(x ++ "&").data ++ A, B, ?_⟩
        have : joinAmp (x :: y :: rest') = x ++ "&" ++ joinAmp (y :: rest') := rfl
        simp [this, string_data_append, hAB]

lemma strIncludes_serialize_of_mem (bu : String)
    (l : List (String × String)) (p : String × String) (h : p ∈ l) :
    strIncludes (bu ++ "?" ++ serializeParams l) (encodePair p) = true := by
  have hm : encodePair p ∈ l.map encodePair := List.mem_map_of_mem _ h
  rcases joinAmp_mem_decomp _ _ hm with ⟨A, B, hAB⟩
  unfold strIncludes
  have hdata : (bu ++ "?" ++ serializeParams l).data =
      ((bu ++ "?").data ++ A) ++ (encodePair p).data ++ B := by
    simp [string_data_append, serializeParams, hAB]
  rw [hdata]
  exact charListIncludes_append _ _ _

lemma mem_upsert_of_ne (base : List (String × String))
    (kv : String × String) (k v : String)
    (hmem : (k, v) ∈ base) (hk : kv.1 ≠ k) : (k, v) ∈ upsert base kv := by
  unfold upsert
  by_cases hc : base.any (fun p => p.1 == kv.1)
  · simp only [hc, if_pos]
    exact List.mem_map.mpr ⟨(k, v), hmem, by
      simp [show (k == kv.1) = false from beq_eq_false_iff_ne.mpr (Ne.symm hk)]⟩
  · simp only [hc, if_neg, Bool.not_eq_true]
    exact List.mem_append_left _ hmem

lemma mem_objMerge (base extra : List (String × String)) (k v : String)
    (hmem : (k, v) ∈ base) (hk : ∀ kv ∈ extra, kv.1 ≠ k) :
    (k, v) ∈ objMerge base extra := by
  induction extra generalizing base with
  | nil => simpa [objMerge] using hmem
  | cons kv0 rest ih =>
    have hstep : objMerge base (kv0 :: rest) = objMerge (upsert base kv0) rest := rfl
    rw [hstep]
    exact ih (upsert base kv0)
      (mem_upsert_of_ne base kv0 k v hmem (hk kv0 (List.mem_cons_self _ _)))
      (fun kv h => hk kv (List.mem_cons_of_mem _ h))

/-! ### C4: fixed WMS parameters -/

/-- C4 (amended): the tile URL built by `addWmsLayer` carries
`service=WMS`, `request=GetMap` and the percent-encoded bounding-box
placeholder whenever the caller's extra `params` do not themselves use
the keys `service`, `request` or `bbox`. -/
theorem wmsTileUrl_fixed_params (bu : String) (o : WmsOptions)
    (hp : ∀ kv ∈ o.params,
      kv.1 ≠ "service" ∧ kv.1 ≠ "request" ∧ kv.1 ≠ "bbox") :
    strIncludes (wmsTileUrl bu o) "service=WMS" = true ∧
    strIncludes (wmsTileUrl bu o) "request=GetMap" = true ∧
    strIncludes (wmsTileUrl bu o) "bbox=%7Bbbox-epsg-3857%7D" = true := by
  have hs : ("service", "WMS") ∈ wmsParams o :=
    mem_objMerge _ _ _ _ (by simp [wmsBaseParams])
      (fun kv h => (hp kv h).1)
  have hr : ("request", "GetMap") ∈ wmsParams o :=
    mem_objMerge _ _ _ _ (by simp [wmsBaseParams])
      (fun kv h => (hp kv h).2.1)
  have hb : ("bbox", "\x7bbbox-epsg-3857\x7d") ∈ wmsParams o :=
    mem_objMerge _ _ _ _ (by simp [wmsBaseParams])
      (fun kv h => (hp kv h).2.2)
  refine ⟨?_, ?_, ?_⟩
  · have := strIncludes_serialize_of_mem bu (wmsParams o) _ hs
    rwa [show encodePair ("service", "WMS") = "service=WMS" from by decide]
      at this
  · have := strIncludes_serialize_of_mem bu (wmsParams o) _ hr
    rwa [show encodePair ("request", "GetMap") = "request=GetMap" from
      by decide] at this
  · have := strIncludes_serialize_of_mem bu (wmsParams o) _ hb
    rwa [show encodePair ("bbox", "\x7bbbox-epsg-3857\x7d") =
      "bbox=%7Bbbox-epsg-3857%7D" from by decide] at this

/-- C4 witness: a concrete call whose extra params avoid the fixed keys
carries all three fixed tokens. -/
theorem wmsTileUrl_fixed_params_witness :
    strIncludes
      (wmsTileUrl "https://example.com/wms"
        { layers := "layer1,layer2", transparent := some true,
          format := some "image/png", params := [("styles", "x")] })
      "service=WMS" = true ∧
    strIncludes
      (wmsTileUrl "https://example.com/wms"
        { layers := "layer1,layer2", transparent := some true,
          format := some "image/png", params := [("styles", "x")] })
      "request=GetMap" = true ∧
    strIncludes
      (wmsTileUrl "https://example.com/wms"
        { layers := "layer1,layer2", transparent := some true,
          format := some "image/png", params := [("styles", "x")] })
      "bbox=%7Bbbox-epsg-3857%7D" = true :=
  wmsTileUrl_fixed_params "https://example.com/wms"
    { layers := "layer1,layer2", transparent := some true,
      format := some "image/png", params := [("styles", "x")] }
    (by decide)

/-- C4 counterexample: a caller-supplied extra parameter CAN override
`service` — the spread `...options.params` comes last, so with
`params: \x7b service: "FOO" \x7d` the URL carries `service=FOO` and not
`service=WMS`. -/
theorem wmsTileUrl_params_override_service :
    strIncludes
      (wmsTileUrl "https://example.com/wms"
        { layers := "l1", params := [("service", "FOO")] })
      "service=WMS" = false ∧
    strIncludes
      (wmsTileUrl "https://example.com/wms"
        { layers := "l1", params := [("service", "FOO")] })
      "service=FOO" = true := by
  constructor
  · decide
  · decide

/-! ### C10 / C3: behavior when the engine has no such layer -/

/-- C10: when the engine reports no layer for `layerId`,
`setLayerOpacity` mutates nothing — no paint property is issued and the
registry (hence any stored opacity) is untouched; the map comes back
unmodified. -/
theorem setLayerOpacity_noop_of_no_layer (m : MapState) (lid : String)
    (o : Rat) (h : getLayer m lid = none) : setLayerOpacity m lid o = m := by
  simp [setLayerOpacity, h]

/-- C10 witness: a registry record exists for `L` but the engine has no
layer `L`; setting opacity 5 returns the map unchanged. -/
theorem setLayerOpacity_noop_of_no_layer_witness :
    setLayerOpacity mOrphan "L" 5 = mOrphan :=
  setLayerOpacity_noop_of_no_layer mOrphan "L" 5 rfl

/-- Paint dispatch never touches the registry. -/
lemma applyOpacityPaint_registry (m : MapState) (lid ty : String)
    (c : Rat) : (applyOpacityPaint m lid ty c).registry = m.registry := by
  unfold applyOpacityPaint
  split <;> rfl

/-- C3 counterexample: with a registry record for `L` but no engine
layer `L`, `setLayerVisibility(map, "L", false)` does NOT set the
record's `visible` field to `false` — the update sits inside
`if (map.getLayer(layerId))`. -/
theorem setLayerVisibility_orphan_not_updated :
    getLayer mOrphan "L" = none ∧
    (getLayerInfoById mOrphan "L").isSome = true ∧
    ¬((getLayerInfoById (setLayerVisibility mOrphan "L" false) "L").map
        LayerInfo.visible = some false) := by
  refine ⟨rfl, rfl, by decide⟩

/-- C3 (amended): `setLayerVisibility` updates the registry record's
`visible` field only when the engine reports the layer exists; when it
does not, the whole map state (registry included) is returned
unmodified. -/
theorem setLayerVisibility_registry_guarded (m : MapState) (lid : String)
    (v : Bool) :
    (getLayer m lid = none → setLayerVisibility m lid v = m) ∧
    ((getLayer m lid).isSome = true →
      ∀ r ∈ (setLayerVisibility m lid v).registry,
        r.layerId = lid → r.visible = v) := by
  constructor
  · intro h
    simp [setLayerVisibility, h]
  · intro h r hr hrl
    rcases Option.isSome_iff_exists.mp h with ⟨l, hl⟩
    simp only [setLayerVisibility, hl, updateLayerVisibility,
      setLayoutProperty] at hr
    rcases List.mem_map.mp hr with ⟨r0, _, heq⟩
    by_cases hc : r0.layerId = lid
    · rw [if_pos (beq_iff_eq.mpr hc)] at heq
      rw [← heq]
    · rw [if_neg (by simpa using hc)] at heq
      subst heq
      exact absurd hrl hc

/-- C3 amended-claim witness: the no-layer case leaves the orphan map
untouched, and with a live engine layer the stored record's flag follows
the call. -/
theorem setLayerVisibility_registry_guarded_witness :
    setLayerVisibility mOrphan "L" true = mOrphan ∧
    ({ layerId := "L", sourceId := "S", type := "fill", visible := false,
       opacity := 1, options := {} } : LayerInfo).visible = false := by
  constructor
  · exact (setLayerVisibility_registry_guarded mOrphan "L" true).1 rfl
  · exact (setLayerVisibility_registry_guarded mLive "L" false).2
      (by decide) _ (by decide) rfl

/-! ### C7: opacity clamping -/

/-- C7: with the engine layer present, `setLayerOpacity` stores the
clamped opacity in the registry record, the clamp maps below-range
inputs to 0, above-range inputs to 1, in-range inputs to themselves,
a `fill`-kind layer gets the clamped value applied as its paint
property, and the generic utility is exactly
`min(max(value, min), max)`. -/
theorem setLayerOpacity_clamp_spec (m : MapState) (lid : String)
    (o : Rat) (hl : (getLayer m lid).isSome = true) :
    (∀ r ∈ (setLayerOpacity m lid o).registry,
       r.layerId = lid → r.opacity = clamp o 0 1) ∧
    (o < 0 → clamp o 0 1 = 0) ∧
    (1 < o → clamp o 0 1 = 1) ∧
    (0 ≤ o → o ≤ 1 → clamp o 0 1 = o) ∧
    (∀ l, getLayer m lid = some l → l.type = "fill" →
       (setLayerOpacity m lid o).paintLog =
         m.paintLog ++ [(lid, "fill-opacity", clamp o 0 1)]) ∧
    (∀ v lo hi : Rat, clamp v lo hi = min (max v lo) hi) := by
  refine ⟨?_, ?_, ?_, ?_, ?_, fun v lo hi => rfl⟩
  · intro r hr hrl
    rcases Option.isSome_iff_exists.mp hl with ⟨l, hL⟩
    simp only [setLayerOpacity, hL, updateLayerOpacity,
      applyOpacityPaint_registry] at hr
    rcases List.mem_map.mp hr with ⟨r0, _, heq⟩
    by_cases hc : r0.layerId = lid
    · rw [if_pos (beq_iff_eq.mpr hc)] at heq
      rw [← heq]
    · rw [if_neg (by simpa using hc)] at heq
      subst heq
      exact absurd hrl hc
  · intro h
    unfold clamp
    rw [max_eq_right h.le, min_eq_left]
    norm_num
  · intro h
    unfold clamp
    rw [max_eq_left (le_trans (by norm_num) h.le), min_eq_right h.le]
  · intro h0 h1
    unfold clamp
    rw [max_eq_left h0, min_eq_left h1]
  · intro l hL hty
    rcases l with ⟨lId, lTy⟩
    simp only at hty
    subst hty
    simp only [setLayerOpacity, hL, applyOpacityPaint, updateLayerOpacity,
      setPaintProperty]

/-- C7 witness: concrete clampings (−5 → 0, 15 → 1, 1/2 unchanged) and
the applied paint value on a live fill layer. -/
theorem setLayerOpacity_clamp_spec_witness :
    clamp (-5 : Rat) 0 1 = 0 ∧
    clamp (15 : Rat) 0 1 = 1 ∧
    clamp (1/2 : Rat) 0 1 = 1/2 ∧
    (setLayerOpacity mLive "L" (-5)).paintLog =
      mLive.paintLog ++ [("L", "fill-opacity", clamp (-5) 0 1)] := by
  refine ⟨?_, ?_, ?_, ?_⟩
  · exact (setLayerOpacity_clamp_spec mLive "L" (-5) rfl).2.1 (by norm_num)
  · exact (setLayerOpacity_clamp_spec mLive "L" 15 rfl).2.2.1 (by norm_num)
  · exact (setLayerOpacity_clamp_spec mLive "L" (1/2) rfl).2.2.2.1
      (by norm_num) (by norm_num)
  · exact (setLayerOpacity_clamp_spec mLive "L" (-5) rfl).2.2.2.2.1
      ⟨"L", "fill"⟩ rfl rfl

/-! ### C5 / C6: unknown basemap names -/

/-- C5 counterexample: activating an unknown basemap name throws, but
the thrown error is a plain `Error` carrying no machine-readable
`UNKNOWN_BASEMAP` code (the coded `MapExtendError` lives only in the
never-invoked `validateBasemapName` utility). -/
theorem addBasemap_unknown_no_code :
    ((addBasemap emptyMap "NotABasemap").2).isSome = true ∧
    ¬((addBasemap emptyMap "NotABasemap").2.map ThrownError.code =
        some (some "UNKNOWN_BASEMAP")) := by
  refine ⟨by decide, by decide⟩

/-- C5 (amended): activating an unknown name throws an error whose
message lists all valid basemap names but which carries no
machine-readable code and no detail mapping; it is the separate
`validateBasemapName` utility — not invoked by `addBasemap`/`setBasemap`
— that throws the error with code `UNKNOWN_BASEMAP` and a detail mapping
holding the full list of valid names. -/
theorem unknown_basemap_error_shape (m : MapState) (name : String)
    (h : basemapNames.contains name = false) :
    (addBasemap m name).2 = some
      { message := "Unknown basemap: " ++ name ++
          ". Available basemaps: " ++
          String.intercalate ", " basemapNames } ∧
    ((addBasemap m name).2.map ThrownError.code) = some none ∧
    validateBasemapName name = some
      { message := "Unknown basemap: " ++ name ++ ". Valid options: " ++
          String.intercalate ", " basemapNames,
        code := some "UNKNOWN_BASEMAP",
        details := [("name", .str name),
                    ("validNames", .strs basemapNames)] } := by
  have h' : ¬ name ∈ basemapNames := by simpa using h
  refine ⟨?_, ?_, ?_⟩ <;> simp [addBasemap, validateBasemapName, h']

/-- C5 amended-claim witness at a concrete unknown name. -/
theorem unknown_basemap_error_shape_witness :
    validateBasemapName "Nope" = some
      { message := "Unknown basemap: " ++ "Nope" ++ ". Valid options: " ++
          String.intercalate ", " basemapNames,
        code := some "UNKNOWN_BASEMAP",
        details := [("name", .str "Nope"),
                    ("validNames", .strs basemapNames)] } :=
  (unknown_basemap_error_shape emptyMap "Nope" (by decide)).2.2

/-- C6: on a map with an active basemap, activating an unknown name
throws and mutates nothing: the whole state is unchanged — in
particular the tracked basemap name, the engine basemap layer and the
engine basemap source (validation runs before any teardown). -/
theorem addBasemap_unknown_preserves_state (m : MapState) (name : String)
    (_hb : m.basemap.isSome = true)
    (h : basemapNames.contains name = false) :
    (addBasemap m name).1 = m ∧
    ((addBasemap m name).2).isSome = true ∧
    (addBasemap m name).1.basemap = m.basemap ∧
    getLayer (addBasemap m name).1 basemapLayerId =
      getLayer m basemapLayerId ∧
    sourceExists (addBasemap m name).1 basemapSourceId =
      sourceExists m basemapSourceId := by
  have h' : ¬ name ∈ basemapNames := by simpa using h
  refine ⟨?_, ?_, ?_, ?_, ?_⟩ <;> simp [addBasemap, h']

/-- C6 witness: a concrete map with `CartoDB.Positron` active survives a
failed activation of an unknown name untouched. -/
theorem addBasemap_unknown_preserves_state_witness :
    (addBasemap mBase "NotInCatalog").1 = mBase ∧
    ((addBasemap mBase "NotInCatalog").2).isSome = true :=
  ⟨(addBasemap_unknown_preserves_state mBase "NotInCatalog" rfl
      (by decide)).1,
   (addBasemap_unknown_preserves_state mBase "NotInCatalog" rfl
      (by decide)).2.1⟩

/-! ### C8: identifier generation -/

/-- C8: generated identifiers have the shape
`mgl-extend-{prefix}-{n}-{suffix}`; each call bumps its own counter by
one (so `n` strictly increases across successive calls of the same
generator and the two counters are independent), and after
`resetCounters` the next identifier of each kind carries `n = 1`. -/
theorem generateIds_spec (p q s t : String) (st : GenState) :
    (generateLayerId p s st).1 =
      "mgl-extend-" ++ p ++ "-" ++ toString (st.layer + 1) ++ "-" ++ s ∧
    (generateLayerId p s st).2 = ⟨st.layer + 1, st.source⟩ ∧
    (generateSourceId q t st).1 =
      "mgl-extend-" ++ q ++ "-" ++ toString (st.source + 1) ++ "-" ++ t ∧
    (generateSourceId q t st).2 = ⟨st.layer, st.source + 1⟩ ∧
    (generateLayerId q t (generateLayerId p s st).2).1 =
      "mgl-extend-" ++ q ++ "-" ++ toString (st.layer + 1 + 1) ++
        "-" ++ t ∧
    st.layer + 1 < st.layer + 1 + 1 ∧
    (generateLayerId p s resetCounters).1 =
      "mgl-extend-" ++ p ++ "-" ++ toString 1 ++ "-" ++ s ∧
    (generateSourceId q t resetCounters).1 =
      "mgl-extend-" ++ q ++ "-" ++ toString 1 ++ "-" ++ t :=
  ⟨rfl, rfl, rfl, rfl, rfl, Nat.lt_succ_self _, rfl, rfl⟩

/-! ### C1: source reference counting on layer removal -/

/-- Removing an engine layer touches neither sources nor registry. -/
lemma removeEngineLayer_sources (m : MapState) (lid : String) :
    (removeEngineLayer m lid).sources = m.sources := rfl

lemma removeEngineLayer_registry (m : MapState) (lid : String) :
    (removeEngineLayer m lid).registry = m.registry := rfl

/-- C1: with a registry record for `layerId` whose source is registered
with the engine, `removeLayerById` keeps the engine source exactly when
some other record (different `layerId`) references the same `sourceId`,
and removes it when no other record does. -/
theorem removeLayerById_source_refcount (m : MapState) (lid : String)
    (info : LayerInfo)
    (hrec : getLayerInfoById m lid = some info)
    (hsrc : sourceExists m info.sourceId = true) :
    ((∃ r ∈ m.registry, r.sourceId = info.sourceId ∧ r.layerId ≠ lid) →
      info.sourceId ∈ (removeLayerById m lid).sources) ∧
    ((∀ r ∈ m.registry, r.sourceId = info.sourceId → r.layerId = lid) →
      info.sourceId ∉ (removeLayerById m lid).sources) := by
  have hmem : info.sourceId ∈ m.sources := List.elem_iff.mp hsrc
  unfold removeLayerById
  rw [hrec]
  by_cases hgl : (getLayer m lid).isSome = true
  all_goals simp only [hgl, if_true, if_false, Bool.false_eq_true,
    removeEngineLayer_sources, removeEngineLayer_registry,
    getAllCustomLayers]
  case pos =>
    rw [show sourceExists (removeEngineLayer m lid) info.sourceId = true from
      hsrc, if_pos rfl]
    constructor
    · rintro ⟨r, hr, hrs, hrl⟩
      have hfil : r ∈ m.registry.filter (fun l =>
          l.sourceId == info.sourceId && l.layerId != lid) :=
        List.mem_filter.mpr ⟨hr, by simp [hrs, hrl]⟩
      rw [show (m.registry.filter (fun l =>
          l.sourceId == info.sourceId && l.layerId != lid)).isEmpty =
          false from by
        simp only [List.isEmpty_eq_false, ne_eq]
        intro hnil
        rw [hnil] at hfil
        cases hfil]
      simpa [removeLayerInfo] using hmem
    · intro hall
      rw [show (m.registry.filter (fun l =>
          l.sourceId == info.sourceId && l.layerId != lid)).isEmpty =
          true from by
        rw [List.isEmpty_iff, List.filter_eq_nil_iff]
        intro r hr
        simp only [Bool.and_eq_true, beq_iff_eq, bne_iff_ne, ne_eq,
          not_and]
        intro hrs hrl
        exact hrl (hall r hr hrs)]
      simp [removeLayerInfo, removeSource, List.mem_filter]
  case neg =>
    rw [show sourceExists m info.sourceId = true from hsrc, if_pos rfl]
    constructor
    · rintro ⟨r, hr, hrs, hrl⟩
      have hfil : r ∈ m.registry.filter (fun l =>
          l.sourceId == info.sourceId && l.layerId != lid) :=
        List.mem_filter.mpr ⟨hr, by simp [hrs, hrl]⟩
      rw [show (m.registry.filter (fun l =>
          l.sourceId == info.sourceId && l.layerId != lid)).isEmpty =
          false from by
        simp only [List.isEmpty_eq_false, ne_eq]
        intro hnil
        rw [hnil] at hfil
        cases hfil]
      simpa [removeLayerInfo] using hmem
    · intro hall
      rw [show (m.registry.filter (fun l =>
          l.sourceId == info.sourceId && l.layerId != lid)).isEmpty =
          true from by
        rw [List.isEmpty_iff, List.filter_eq_nil_iff]
        intro r hr
        simp only [Bool.and_eq_true, beq_iff_eq, bne_iff_ne, ne_eq,
          not_and]
        intro hrs hrl
        exact hrl (hall r hr hrs)]
      simp [removeLayerInfo, removeSource, List.mem_filter]

/-- C1 witness: removing `L1` while `L2` still references `S` keeps `S`
registered; removing `L3`, sole owner of `S2`, removes `S2`. -/
theorem removeLayerById_source_refcount_witness :
    "S" ∈ (removeLayerById mShared "L1").sources ∧
    "S2" ∉ (removeLayerById mSolo "L3").sources := by
  constructor
  · exact (removeLayerById_source_refcount mShared "L1"
      { layerId := "L1", sourceId := "S", type := "fill",
        visible := true, opacity := 1, options := {} } rfl rfl).1
      ⟨{ layerId := "L2", sourceId := "S", type := "fill",
         visible := true, opacity := 1, options := {} },
       by decide, rfl, by decide⟩
  · exact (removeLayerById_source_refcount mSolo "L3"
      { layerId := "L3", sourceId := "S2", type := "line",
        visible := true, opacity := 1, options := {} } rfl rfl).2
      (by decide)

/-! ### C9: default layer kind from detected geometry -/

/-- A list whose elements are all `c` dedups to `[c]` once nonempty. -/
lemma dedup_const {α : Type} [DecidableEq α] (l : List α) (c : α)
    (hne : l ≠ []) (hall : ∀ x ∈ l, x = c) : l.dedup = [c] := by
  induction l with
  | nil => exact absurd rfl hne
  | cons a rest ih =>
    have ha : a = c := hall a (List.mem_cons_self _ _)
    subst ha
    by_cases hr : rest = []
    · subst hr
      simp
    · have hdr : rest.dedup = [a] :=
        ih hr (fun x hx => hall x (List.mem_cons_of_mem _ hx))
      rw [List.dedup_cons_of_mem, hdr]
      rcases List.exists_mem_of_ne_nil rest hr with ⟨x, hx⟩
      have hxa : x = a := hall x (List.mem_cons_of_mem _ hx)
      exact hxa ▸ hx

/-- C9: with no caller override, Point-family geometry gets a `circle`
layer, Line-family a `line` layer, Polygon-family a `fill` layer — for a
bare geometry, a single feature, and a uniform feature collection alike
— and a feature collection holding two differently-classified features
falls back to `fill`. -/
theorem geojson_default_layer_kind :
    (∀ t, t ∈ ["Point", "MultiPoint"] →
      defaultLayerTypeFor (.geometry t) = "circle" ∧
      defaultLayerTypeFor (.feature (some t)) = "circle" ∧
      ∀ fs : List (Option String), fs ≠ [] → (∀ g ∈ fs, g = some t) →
        defaultLayerTypeFor (.featureCollection fs) = "circle") ∧
    (∀ t, t ∈ ["LineString", "MultiLineString"] →
      defaultLayerTypeFor (.geometry t) = "line" ∧
      defaultLayerTypeFor (.feature (some t)) = "line" ∧
      ∀ fs : List (Option String), fs ≠ [] → (∀ g ∈ fs, g = some t) →
        defaultLayerTypeFor (.featureCollection fs) = "line") ∧
    (∀ t, t ∈ ["Polygon", "MultiPolygon"] →
      defaultLayerTypeFor (.geometry t) = "fill" ∧
      defaultLayerTypeFor (.feature (some t)) = "fill" ∧
      ∀ fs : List (Option String), fs ≠ [] → (∀ g ∈ fs, g = some t) →
        defaultLayerTypeFor (.featureCollection fs) = "fill") ∧
    (∀ (fs : List (Option String)) (g1 g2 : Option String),
      g1 ∈ fs → g2 ∈ fs → classifyFeature g1 ≠ classifyFeature g2 →
      defaultLayerTypeFor (.featureCollection fs) = "fill") := by
  have huniform : ∀ (t : String) (fs : List (Option String)), fs ≠ [] →
      (∀ g ∈ fs, g = some t) →
      defaultLayerTypeFor (.featureCollection fs) =
        getDefaultLayerType (classifyFeature (some t)) := by
    intro t fs hne hall
    have hmap : ∀ x ∈ fs.map classifyFeature, x = classifyFeature (some t) := by
      intro x hx
      rcases List.mem_map.mp hx with ⟨g, hg, hgx⟩
      rw [← hgx, hall g hg]
    have hdd : (fs.map classifyFeature).dedup = [classifyFeature (some t)] :=
      dedup_const _ _ (by simpa using hne) hmap
    simp [defaultLayerTypeFor, detectGeometryType, hdd]
  refine ⟨?_, ?_, ?_, ?_⟩
  · intro t ht
    have ht2 : t = "Point" ∨ t = "MultiPoint" := by simpa using ht
    rcases ht2 with rfl | rfl
    · exact ⟨by decide, by decide, fun fs h1 h2 => by
        rw [huniform _ fs h1 h2]; decide⟩
    · exact ⟨by decide, by decide, fun fs h1 h2 => by
        rw [huniform _ fs h1 h2]; decide⟩
  · intro t ht
    have ht2 : t = "LineString" ∨ t = "MultiLineString" := by simpa using ht
    rcases ht2 with rfl | rfl
    · exact ⟨by decide, by decide, fun fs h1 h2 => by
        rw [huniform _ fs h1 h2]; decide⟩
    · exact ⟨by decide, by decide, fun fs h1 h2 => by
        rw [huniform _ fs h1 h2]; decide⟩
  · intro t ht
    have ht2 : t = "Polygon" ∨ t = "MultiPolygon" := by simpa using ht
    rcases ht2 with rfl | rfl
    · exact ⟨by decide, by decide, fun fs h1 h2 => by
        rw [huniform _ fs h1 h2]; decide⟩
    · exact ⟨by decide, by decide, fun fs h1 h2 => by
        rw [huniform _ fs h1 h2]; decide⟩
  · intro fs g1 g2 hg1 hg2 hne
    have h1 : classifyFeature g1 ∈ (fs.map classifyFeature).dedup :=
      List.mem_dedup.mpr (List.mem_map_of_mem _ hg1)
    have h2 : classifyFeature g2 ∈ (fs.map classifyFeature).dedup :=
      List.mem_dedup.mpr (List.mem_map_of_mem _ hg2)
    rcases hdd : (fs.map classifyFeature).dedup with _ | ⟨a, _ | ⟨b, rest⟩⟩
    · rw [hdd] at h1
      cases h1
    · rw [hdd] at h1 h2
      have e1 : classifyFeature g1 = a := by simpa using h1
      have e2 : classifyFeature g2 = a := by simpa using h2
      exact absurd (e1.trans e2.symm) hne
    · simp [defaultLayerTypeFor, detectGeometryType, hdd,
        getDefaultLayerType]

/-- C9 witness: a `Point` geometry defaults to `circle`, a `LineString`
feature to `line`, a uniform `MultiPolygon` collection to `fill`, and a
mixed Point/Polygon collection to `fill`. -/
theorem geojson_default_layer_kind_witness :
    defaultLayerTypeFor (.geometry "Point") = "circle" ∧
    defaultLayerTypeFor (.feature (some "LineString")) = "line" ∧
    defaultLayerTypeFor
      (.featureCollection [some "MultiPolygon", some "MultiPolygon"]) =
      "fill" ∧
    defaultLayerTypeFor
      (.featureCollection [some "Point", some "Polygon"]) = "fill" := by
  refine ⟨?_, ?_, ?_, ?_⟩
  · exact (geojson_default_layer_kind.1 "Point" (by decide)).1
  · exact (geojson_default_layer_kind.2.1 "LineString" (by decide)).2.1
  · exact (geojson_default_layer_kind.2.2.1 "MultiPolygon"
      (by decide)).2.2 _ (by decide) (by decide)
  · exact geojson_default_layer_kind.2.2.2
      [some "Point", some "Polygon"] (some "Point") (some "Polygon")
      (by decide) (by decide) (by decide)

/-! ### C2: every registry record is backed by an engine layer -/

lemma mem_insertBeforeId_left (ls : List EngineLayer) (bid : String)
    (moved : List EngineLayer) (x : EngineLayer) (hx : x ∈ ls) :
    x ∈ insertBeforeId ls bid moved := by
  induction ls with
  | nil => cases hx
  | cons l ls ih =>
    unfold insertBeforeId
    split
    · exact List.mem_append_right _ hx
    · rcases List.mem_cons.mp hx with rfl | h
      · exact List.mem_cons_self _ _
      · exact List.mem_cons_of_mem _ (ih h)

lemma mem_insertBeforeId_right (ls : List EngineLayer) (bid : String)
    (moved : List EngineLayer) (x : EngineLayer) (hx : x ∈ moved) :
    x ∈ insertBeforeId ls bid moved := by
  induction ls with
  | nil => exact hx
  | cons l ls ih =>
    unfold insertBeforeId
    split
    · exact List.mem_append_left _ hx
    · exact List.mem_cons_of_mem _ ih

lemma mem_moveLayer (m : MapState) (lid : String) (b : Option String)
    (x : EngineLayer) (hx : x ∈ m.layers) : x ∈ (moveLayer m lid b).layers := by
  unfold moveLayer
  by_cases hc : x.id = lid
  · have hm : x ∈ m.layers.filter (fun a => a.id == lid) :=
      List.mem_filter.mpr ⟨hx, by simp [hc]⟩
    cases b with
    | none => exact List.mem_append_right _ hm
    | some bid => exact mem_insertBeforeId_right _ _ _ _ hm
  · have hm : x ∈ m.layers.filter (fun a => a.id != lid) :=
      List.mem_filter.mpr ⟨hx, by simp [hc]⟩
    cases b with
    | none => exact List.mem_append_left _ hm
    | some bid => exact mem_insertBeforeId_left _ _ _ _ hm

lemma sendLayerToBack_registry (m : MapState) (lid : String) :
    (sendLayerToBack m lid).registry = m.registry := by
  unfold sendLayerToBack
  dsimp only
  repeat' split
  all_goals rfl

lemma sendLayerToBack_layers_mem (m : MapState) (lid : String)
    (x : EngineLayer) (hx : x ∈ m.layers) :
    x ∈ (sendLayerToBack m lid).layers := by
  unfold sendLayerToBack
  dsimp only
  repeat' split
  all_goals first
    | exact hx
    | exact mem_moveLayer m lid _ x hx

lemma removeLayerById_registry_eq (m : MapState) (lid : String) :
    (removeLayerById m lid).registry =
      m.registry.filter (fun r => r.layerId != lid) := by
  unfold removeLayerById
  dsimp only
  repeat' split
  all_goals rfl

lemma removeLayerById_layers_mem (m : MapState) (lid : String)
    (x : EngineLayer) (hx : x ∈ m.layers) (hne : x.id ≠ lid) :
    x ∈ (removeLayerById m lid).layers := by
  unfold removeLayerById
  dsimp only
  repeat' split
  all_goals first
    | exact hx
    | exact List.mem_filter.mpr ⟨hx, by simp [hne]⟩

/-- The paint dispatch never touches the style layer list either. -/
lemma applyOpacityPaint_layers (m : MapState) (lid ty : String) (c : Rat) :
    (applyOpacityPaint m lid ty c).layers = m.layers := by
  unfold applyOpacityPaint
  split <;> rfl

/-- The registry invariant of the spec: every record's `layerId` names a
layer currently registered with the engine. -/
def RegistryBacked (m : MapState) : Prop :=
  ∀ r ∈ m.registry, ∃ l ∈ m.layers, l.id = r.layerId

lemma step_preserves_backed (m : MapState) (op : Op)
    (h : RegistryBacked m) : RegistryBacked (step m op) := by
  cases op with
  | create lid sid ty options beforeId =>
    intro r hr
    cases beforeId with
    | none =>
      simp only [step, createLayer, storeLayerInfo, addSource,
        addEngineLayer] at hr ⊢
      rcases List.mem_append.mp hr with hold | hnew
      · have hm : r ∈ m.registry := List.mem_of_mem_filter hold
        rcases h r hm with ⟨l, hlm, hle⟩
        exact ⟨l, List.mem_append_left _ hlm, hle⟩
      · have hre : r = { layerId := lid, sourceId := sid, type := ty,
                         visible := true,
                         opacity := options.opacity.getD 1,
                         options := options } := by simpa using hnew
        subst hre
        exact ⟨⟨lid, ty⟩,
          List.mem_append_right _ (List.mem_singleton.mpr rfl), rfl⟩
    | some bid =>
      simp only [step, createLayer, storeLayerInfo, addSource,
        addEngineLayer] at hr ⊢
      rcases List.mem_append.mp hr with hold | hnew
      · have hm : r ∈ m.registry := List.mem_of_mem_filter hold
        rcases h r hm with ⟨l, hlm, hle⟩
        exact ⟨l, mem_insertBeforeId_left _ _ _ _ hlm, hle⟩
      · have hre : r = { layerId := lid, sourceId := sid, type := ty,
                         visible := true,
                         opacity := options.opacity.getD 1,
                         options := options } := by simpa using hnew
        subst hre
        exact ⟨⟨lid, ty⟩,
          mem_insertBeforeId_right _ _ _ _ (List.mem_singleton.mpr rfl),
          rfl⟩
  | visibility lid v =>
    intro r hr
    simp only [step] at hr ⊢
    unfold setLayerVisibility at hr ⊢
    cases hgl : getLayer m lid with
    | none =>
      rw [hgl] at hr
      exact h r hr
    | some l =>
      rw [hgl] at hr
      dsimp only at hr ⊢
      simp only [updateLayerVisibility, setLayoutProperty] at hr ⊢
      rcases List.mem_map.mp hr with ⟨r0, hr0, heq⟩
      rcases h r0 hr0 with ⟨l0, hl0, hle⟩
      refine ⟨l0, hl0, ?_⟩
      rw [hle, ← heq]
      split <;> rfl
  | opacity lid o =>
    intro r hr
    simp only [step] at hr ⊢
    unfold setLayerOpacity at hr ⊢
    cases hgl : getLayer m lid with
    | none =>
      rw [hgl] at hr
      exact h r hr
    | some l =>
      rw [hgl] at hr
      dsimp only at hr ⊢
      simp only [updateLayerOpacity, applyOpacityPaint_registry,
        applyOpacityPaint_layers] at hr ⊢
      rcases List.mem_map.mp hr with ⟨r0, hr0, heq⟩
      rcases h r0 hr0 with ⟨l0, hl0, hle⟩
      refine ⟨l0, hl0, ?_⟩
      rw [hle, ← heq]
      split <;> rfl
  | toFront lid =>
    intro r hr
    simp only [step, bringLayerToFront] at hr ⊢
    by_cases hgl : (getLayer m lid).isSome = true
    · rw [if_pos hgl] at hr ⊢
      rcases h r hr with ⟨l0, hl0, hle⟩
      exact ⟨l0, mem_moveLayer m lid none l0 hl0, hle⟩
    · rw [if_neg hgl] at hr ⊢
      exact h r hr
  | toBack lid =>
    intro r hr
    simp only [step] at hr ⊢
    rw [sendLayerToBack_registry] at hr
    rcases h r hr with ⟨l0, hl0, hle⟩
    exact ⟨l0, sendLayerToBack_layers_mem m lid l0 hl0, hle⟩
  | remove lid =>
    intro r hr
    simp only [step] at hr ⊢
    rw [removeLayerById_registry_eq] at hr
    have hm : r ∈ m.registry := List.mem_of_mem_filter hr
    have hne : r.layerId ≠ lid := by
      have := (List.mem_filter.mp hr).2
      simpa using this
    rcases h r hm with ⟨l0, hl0, hle⟩
    exact ⟨l0, removeLayerById_layers_mem m lid l0 hl0 (hle ▸ hne), hle⟩

/-- C2: after any sequence of library operations on a fresh map, every
registry record's `layerId` names a layer currently registered with the
engine — creation registers the engine layer before storing the record
and removal deletes the record in the same operation that removes the
engine layer, so no record outlives its engine layer. -/
theorem registry_backed_by_engine (ops : List Op) (r : LayerInfo)
    (hr : r ∈ (applyOps ops).registry) :
    ∃ l ∈ (applyOps ops).layers, l.id = r.layerId := by
  have hfold : ∀ (l : List Op) (m : MapState),
      RegistryBacked m → RegistryBacked (l.foldl step m) := by
    intro l
    induction l with
    | nil => exact fun m hm => hm
    | cons op rest ih =>
      exact fun m hm => ih _ (step_preserves_backed m op hm)
  exact hfold ops emptyMap (fun r hr => by cases hr) r hr

/-- C2 witness: one creation followed by a visibility toggle and a
removal of a sibling leaves the surviving record backed by its engine
layer. -/
theorem registry_backed_by_engine_witness :
    ∃ l ∈ (applyOps [Op.create "L" "S" "fill" {} none,
        Op.create "L2" "S2" "line" {} none,
        Op.visibility "L" false,
        Op.remove "L2"]).layers,
      l.id = ({ layerId := "L", sourceId := "S", type := "fill",
                visible := false, opacity := 1,
                options := {} } : LayerInfo).layerId :=
  registry_backed_by_engine _ _ (by decide)
